import Mathlib

/-!
Verification of the simple-drand beacon client (src/lib.rs, src/config.rs).

The development shallowly embeds the Rust source. Bytes are `Nat` values
below 256, byte strings are `List Nat`, machine integers are `Nat` with
explicit wrap where it matters, and fallible Rust code returns
`Except DrandError`. The BLS12-381 curve library (crate bls12_381) is an
external dependency of the program, so it is modelled as an abstract
interface `Bls`; the facts a lawful pairing library provides (final
exponentiation distributes over a two-pair Miller loop, pairing of a
negated point is the inverse) are collected in `Bls.Lawful`. Everything
the repository itself computes (hex codec, SHA-256, message construction,
round arithmetic, the verification pipeline and its console output) is
embedded executably.
-/

/-! ## Hex codec (crate hex: decode accepts even-length strings of hex
digits in either case; encode emits lowercase) -/

/-- Value of one hex digit character, in either case; `none` on any other
character (mirrors hex::decode rejecting invalid characters). -/
def hexVal (c : Char) : Option Nat :=
  if '0' ≤ c ∧ c ≤ '9' then some (c.toNat - '0'.toNat)
  else if 'a' ≤ c ∧ c ≤ 'f' then some (c.toNat - 'a'.toNat + 10)
  else if 'A' ≤ c ∧ c ≤ 'F' then some (c.toNat - 'A'.toNat + 10)
  else none

/-- Decode a hex character list two digits per byte; `none` on odd length
or on a non-hex character (the two failure cases of hex::decode). -/
def hexDecodeChars : List Char → Option (List Nat)
  | [] => some []
  | [_] => none
  | c1 :: c2 :: rest =>
    match hexVal c1, hexVal c2, hexDecodeChars rest with
    | some h, some l, some r => some ((16 * h + l) :: r)
    | _, _, _ => none

/-- hex::decode on a Lean string. -/
def hexDecode (s : String) : Option (List Nat) :=
  hexDecodeChars s.data

/-- Lowercase hex digit for `n % 16` (the HEX_CHARS_LOWER table of crate
hex; inputs are always below 16 when the argument is a byte nibble). -/
def hexDigit (n : Nat) : Char :=
  if n % 16 < 10 then Char.ofNat (48 + n % 16) else Char.ofNat (87 + n % 16)

/-- Two lowercase hex characters per byte, high nibble first. -/
def hexEncodeChars : List Nat → List Char
  | [] => []
  | b :: rest => hexDigit (b / 16) :: hexDigit (b % 16) :: hexEncodeChars rest

/-- hex::encode: lowercase hex string of a byte list. -/
def hexEncode (bytes : List Nat) : String :=
  String.mk (hexEncodeChars bytes)

/-! ## Byte encoders -/

/-- u64::to_be_bytes: 8 bytes, big-endian. -/
def u64be (n : Nat) : List Nat :=
  [n / 2 ^ 56 % 256, n / 2 ^ 48 % 256, n / 2 ^ 40 % 256, n / 2 ^ 32 % 256,
   n / 2 ^ 24 % 256, n / 2 ^ 16 % 256, n / 2 ^ 8 % 256, n % 256]

/-- 4 bytes of a 32-bit word, big-endian. -/
def u32be (n : Nat) : List Nat :=
  [n / 2 ^ 24 % 256, n / 2 ^ 16 % 256, n / 2 ^ 8 % 256, n % 256]

/-- UTF-8 bytes of one character (str::as_bytes on one scalar value). -/
def charUtf8 (c : Char) : List Nat :=
  let n := c.toNat
  if n < 128 then [n]
  else if n < 2048 then [192 + n / 64, 128 + n % 64]
  else if n < 65536 then [224 + n / 4096, 128 + n / 64 % 64, 128 + n % 64]
  else [240 + n / 262144, 128 + n / 4096 % 64, 128 + n / 64 % 64, 128 + n % 64]

/-- UTF-8 bytes of a character list. -/
def strBytesAux : List Char → List Nat
  | [] => []
  | c :: cs => charUtf8 c ++ strBytesAux cs

/-- str::as_bytes: the UTF-8 bytes of a string. -/
def strBytes (s : String) : List Nat :=
  strBytesAux s.data

/-! ## SHA-256 (crate sha2), on byte lists, words as `Nat` mod 2^32 -/

/-- Truncate to a 32-bit word. -/
def w32 (n : Nat) : Nat := n % 4294967296

/-- Rotate a 32-bit word right by `k` bits. -/
def rotr32 (k x : Nat) : Nat :=
  w32 (x / 2 ^ k + x % 2 ^ k * 2 ^ (32 - k))

/-- SHA-256 big sigma 0. -/
def bsig0 (x : Nat) : Nat := rotr32 2 x ^^^ rotr32 13 x ^^^ rotr32 22 x

/-- SHA-256 big sigma 1. -/
def bsig1 (x : Nat) : Nat := rotr32 6 x ^^^ rotr32 11 x ^^^ rotr32 25 x

/-- SHA-256 small sigma 0. -/
def ssig0 (x : Nat) : Nat := rotr32 7 x ^^^ rotr32 18 x ^^^ x / 2 ^ 3

/-- SHA-256 small sigma 1. -/
def ssig1 (x : Nat) : Nat := rotr32 17 x ^^^ rotr32 19 x ^^^ x / 2 ^ 10

/-- SHA-256 choice function. -/
def chF (x y z : Nat) : Nat := (x &&& y) ^^^ ((x ^^^ 4294967295) &&& z)

/-- SHA-256 majority function. -/
def majF (x y z : Nat) : Nat := (x &&& y) ^^^ (x &&& z) ^^^ (y &&& z)

/-- The 64 SHA-256 round constants, written in decimal. -/
def shaK : List Nat :=
  [1116352408, 1899447441, 3049323471, 3921009573, 961987163, 1508970993,
   2453635748, 2870763221, 3624381080, 310598401, 607225278, 1426881987,
   1925078388, 2162078206, 2614888103, 3248222580, 3835390401, 4022224774,
   264347078, 604807628, 770255983, 1249150122, 1555081692, 1996064986,
   2554220882, 2821834349, 2952996808, 3210313671, 3336571891, 3584528711,
   113926993, 338241895, 666307205, 773529912, 1294757372, 1396182291,
   1695183700, 1986661051, 2177026350, 2456956037, 2730485921, 2820302411,
   3259730800, 3345764771, 3516065817, 3600352804, 4094571909, 275423344,
   430227734, 506948616, 659060556, 883997877, 958139571, 1322822218,
   1537002063, 1747873779, 1955562222, 2024104815, 2227730452, 2361852424,
   2428436474, 2756734187, 3204031479, 3329325298]

/-- The SHA-256 initial hash value, written in decimal. -/
def shaH0 : List Nat :=
  [1779033703, 3144134277, 1013904242, 2773480762,
   1359893119, 2600822924, 528734635, 1541459225]

/-- Pack bytes into 32-bit words, big-endian, 4 bytes per word. -/
def bytesToWords : List Nat → List Nat
  | b0 :: b1 :: b2 :: b3 :: rest =>
    (b0 * 16777216 + b1 * 65536 + b2 * 256 + b3) :: bytesToWords rest
  | _ => []

/-- Extend the 16-word schedule; the accumulator is kept reversed so the
head is the most recent word. -/
def scheduleExtend : Nat → List Nat → List Nat
  | 0, acc => acc
  | n + 1, acc =>
    scheduleExtend n
      (w32 (ssig1 (acc.getD 1 0) + acc.getD 6 0 + ssig0 (acc.getD 14 0)
            + acc.getD 15 0) :: acc)

/-- The 64-word message schedule from the 16 block words. -/
def messageSchedule (ws : List Nat) : List Nat :=
  (scheduleExtend 48 ws.reverse).reverse

/-- One SHA-256 compression round on the 8-word working state. -/
def roundStep (st : List Nat) (kw : Nat × Nat) : List Nat :=
  match st with
  | [a, b, c, d, e, f, g, h] =>
    let t1 := w32 (h + bsig1 e + chF e f g + kw.1 + kw.2)
    let t2 := w32 (bsig0 a + majF a b c)
    [w32 (t1 + t2), a, b, c, w32 (d + t1), e, f, g]
  | st => st

/-- Compress one 64-byte block into the running hash value. -/
def processBlock (H : List Nat) (block : List Nat) : List Nat :=
  let ws := messageSchedule (bytesToWords block)
  let st := (shaK.zip ws).foldl roundStep H
  (H.zip st).map fun p => w32 (p.1 + p.2)

/-- Split into 64-byte blocks: structural recursion on a fuel bound so
the kernel can evaluate it; each step consumes at least one byte, so the
length of the list is enough fuel. -/
def chunksAux : Nat → List Nat → List (List Nat)
  | 0, _ => []
  | _ + 1, [] => []
  | n + 1, l => l.take 64 :: chunksAux n (l.drop 64)

/-- Split into 64-byte blocks. -/
def chunks64 (l : List Nat) : List (List Nat) :=
  chunksAux l.length l

/-- SHA-256 padding: append 0x80, zeros to 56 mod 64, and the bit length
as 8 big-endian bytes. -/
def sha256pad (msg : List Nat) : List Nat :=
  msg ++ 128 :: List.replicate ((119 - msg.length % 64) % 64) 0
      ++ u64be (8 * msg.length)

/-- SHA-256 digest (32 bytes) of a byte list. -/
def sha256 (msg : List Nat) : List Nat :=
  (((chunks64 (sha256pad msg)).foldl processBlock shaH0).map u32be).flatten

/-! ## Data model (src/lib.rs lines 11-47, src/config.rs lines 21-28) -/

/-- One beacon as fetched from the network (struct DrandBeacon). -/
structure DrandBeacon where
  round : Nat
  randomness : String
  signature : String
  previous_signature : Option String
deriving DecidableEq

/-- Per-chain configuration (struct ChainConfig in src/config.rs). -/
structure ChainConfig where
  chain_hash : String
  public_key : String
  genesis_time : Nat
  period : Nat
  scheme_id : String
deriving DecidableEq

/-- The failure sites of the client, one constructor per distinct
anyhow error in src/lib.rs (hex decode failures keep the site they
arise at). -/
inductive DrandError
  | pkHexError
  | invalidG1PkLength
  | invalidG1PkPoint
  | invalidG2PkLength
  | invalidG2PkPoint
  | sigHexError
  | prevSigHexError
  | invalidG1SigLength
  | invalidG1SigPoint
  | invalidG2SigLength
  | invalidG2SigPoint
  | missingG1PublicKey
  | missingG2PublicKey
  | quicknetVerifyFailed
  | mainnetVerifyFailed
  | randomnessMismatch
deriving DecidableEq

/-! ## The external BLS12-381 library, as an abstract interface

The crate bls12_381 is outside the repository; `Bls` packages exactly the
operations src/lib.rs calls on it: generators, the pairing, negation (via
the `Neg` instance on the G1 type), the two-pair multi Miller loop, final
exponentiation into the target group, compressed-point decoding with the
canonical subgroup validation (from_compressed), and the two hash-to-curve
suites (keyed by message and domain separation tag). -/

structure Bls (G1 G2 GT ML : Type) where
  g1gen : G1
  g2gen : G2
  pairing : G1 → G2 → GT
  multiMillerLoop2 : G1 → G2 → G1 → G2 → ML
  finalExponentiation : ML → GT
  g1FromCompressed : List Nat → Option G1
  g2FromCompressed : List Nat → Option G2
  hashToG1 : List Nat → List Nat → G1
  hashToG2 : List Nat → List Nat → G2

variable {G1 G2 GT ML : Type}

/-- The two facts about a genuine pairing library that the optimized
equality check relies on: the final exponentiation of a two-pair Miller
loop is the product of the two pairings, and pairing a negated G1 point
inverts the pairing value (bilinearity). Both hold for BLS12-381. -/
structure Bls.Lawful [Neg G1] [CommGroup GT] (B : Bls G1 G2 GT ML) : Prop where
  fe_mml : ∀ p q r s, B.finalExponentiation (B.multiMillerLoop2 p q r s)
      = B.pairing p q * B.pairing r s
  pairing_neg : ∀ p q, B.pairing (-p) q = (B.pairing p q)⁻¹

/-- fast_pairing_equality (src/lib.rs lines 310-321): negate p, one
combined two-pair Miller loop over (-p, q) and (r, s), one final
exponentiation, then compare with the identity of the target group. -/
def fast_pairing_equality [Neg G1] [CommGroup GT] [DecidableEq GT]
    (B : Bls G1 G2 GT ML) (p : G1) (q : G2) (r : G1) (s : G2) : Bool :=
  let minus_p := -p
  let value := B.finalExponentiation (B.multiMillerLoop2 minus_p q r s)
  decide (value = 1)

/-- The client (struct DrandClient), parameterized by the curve point
types of the external library. -/
structure DrandClient (G1 G2 : Type) where
  chain_config : ChainConfig
  g1_public_key : Option G1
  g2_public_key : Option G2
  use_quicknet : Bool
  base_url : String
  timeout_seconds : Nat
  quicknet_dst : String
  mainnet_dst : String

/-- DrandClient::new (src/lib.rs lines 51-85): hex-decode the public key,
then decode it as a compressed G2 point (96 bytes) for quicknet or a
compressed G1 point (48 bytes) for mainnet; the byte-length check is the
try_into conversion to the fixed-size array, the point and subgroup check
is from_compressed. No other field is validated. -/
def DrandClient.new (B : Bls G1 G2 GT ML) (chain_config : ChainConfig)
    (base_url : String) (timeout_seconds : Nat) (use_quicknet : Bool)
    (quicknet_dst mainnet_dst : String) :
    Except DrandError (DrandClient G1 G2) :=
  match hexDecode chain_config.public_key with
  | none => .error .pkHexError
  | some pk_bytes =>
    if use_quicknet then
      if pk_bytes.length = 96 then
        match B.g2FromCompressed pk_bytes with
        | some pk =>
          .ok { chain_config := chain_config, g1_public_key := none,
                g2_public_key := some pk, use_quicknet := use_quicknet,
                base_url := base_url, timeout_seconds := timeout_seconds,
                quicknet_dst := quicknet_dst, mainnet_dst := mainnet_dst }
        | none => .error .invalidG2PkPoint
      else .error .invalidG2PkLength
    else
      if pk_bytes.length = 48 then
        match B.g1FromCompressed pk_bytes with
        | some pk =>
          .ok { chain_config := chain_config, g1_public_key := some pk,
                g2_public_key := none, use_quicknet := use_quicknet,
                base_url := base_url, timeout_seconds := timeout_seconds,
                quicknet_dst := quicknet_dst, mainnet_dst := mainnet_dst }
        | none => .error .invalidG1PkPoint
      else .error .invalidG1PkLength

/-! ## Round clock (src/lib.rs lines 164-174)

u64 division aborts the process on a zero divisor, so the embedding of
the division returns `none` in exactly that case. -/

/-- u64 division: `none` models the divide-by-zero abort. -/
def rustDiv (a b : Nat) : Option Nat :=
  if b = 0 then none else some (a / b)

/-- round_at_timestamp: clamp to round 1 at or before genesis, otherwise
one plus the number of whole periods elapsed since genesis. -/
def DrandClient.round_at_timestamp (c : DrandClient G1 G2)
    (timestamp : Nat) : Option Nat :=
  if timestamp ≤ c.chain_config.genesis_time then some 1
  else (rustDiv (timestamp - c.chain_config.genesis_time)
          c.chain_config.period).map (· + 1)

/-- next_round_after: one more than round_at_timestamp. -/
def DrandClient.next_round_after (c : DrandClient G1 G2)
    (timestamp : Nat) : Option Nat :=
  (c.round_at_timestamp timestamp).map (· + 1)

/-! ## Signed-message construction (src/lib.rs lines 182-208) -/

/-- The include_prev_sig match (lines 185-195): the chained identifier
always includes, the three known unchained identifiers never include, any
other identifier probes the beacon for a non-empty previous signature. -/
def includePrevSig (scheme_id : String) (b : DrandBeacon) : Bool :=
  if scheme_id = "pedersen-bls-chained" then true
  else if scheme_id = "bls-unchained-g1-rfc9380" then false
  else if scheme_id = "pedersen-bls-unchained" then false
  else if scheme_id = "bls-unchained-on-g1" then false
  else
    match b.previous_signature with
    | some s => !s.isEmpty
    | none => false

/-- Lines 197-208: when included, a present non-empty previous signature
is hex-decoded and fed to the hasher (decode failure propagates); then
the round number as 8 big-endian bytes; the digest is the signed
message. -/
def buildMessage (scheme_id : String) (b : DrandBeacon) :
    Except DrandError (List Nat) :=
  if includePrevSig scheme_id b then
    match b.previous_signature with
    | some prev_sig =>
      if prev_sig.isEmpty then .ok (sha256 (u64be b.round))
      else
        match hexDecode prev_sig with
        | some prev_bytes => .ok (sha256 (prev_bytes ++ u64be b.round))
        | none => .error .prevSigHexError
    | none => .ok (sha256 (u64be b.round))
  else .ok (sha256 (u64be b.round))

/-- RandomnessCheck (lines 279-288): the claimed randomness must equal
the lowercase hex of SHA-256 of the raw signature bytes, as an exact
string comparison. -/
def randomnessCheck (sig_bytes : List Nat) (b : DrandBeacon) :
    Except DrandError Unit :=
  let expected_randomness := hexEncode (sha256 sig_bytes)
  if expected_randomness ≠ b.randomness then .error .randomnessMismatch
  else .ok ()

/-- The scheme-dispatched part of verify_beacon (lines 210-288), after
signature hex decode and message construction; the second component is
the console output of the println calls, in order. -/
def verifyCore [Neg G1] [CommGroup GT] [DecidableEq GT]
    (B : Bls G1 G2 GT ML) (c : DrandClient G1 G2) (b : DrandBeacon)
    (sig_bytes message : List Nat) :
    Except DrandError Unit × List String :=
  let dstStr := if c.use_quicknet then c.quicknet_dst else c.mainnet_dst
  let dst := strBytes dstStr
  if c.use_quicknet then
    let log0 := ["DEBUG: Quicknet verification"]
    if sig_bytes.length = 48 then
      match B.g1FromCompressed sig_bytes with
      | some signature =>
        match c.g2_public_key with
        | some public_key =>
          let hashed_message := B.hashToG1 message dst
          let lhs := B.pairing signature B.g2gen
          let rhs := B.pairing hashed_message public_key
          let log1 := log0 ++ ["  Quicknet pairing verification"]
          if lhs ≠ rhs then
            (.error .quicknetVerifyFailed,
             log1 ++ ["  Quicknet pairing verification FAILED"])
          else
            (randomnessCheck sig_bytes b,
             log1 ++ ["  Quicknet pairing verification PASSED"])
        | none => (.error .missingG2PublicKey, log0)
      | none => (.error .invalidG1SigPoint, log0)
    else (.error .invalidG1SigLength, log0)
  else
    let log0 := ["DEBUG: Mainnet verification",
                 "  Signature bytes len: " ++ toString sig_bytes.length,
                 "  Message: " ++ hexEncode message,
                 "  DST: " ++ dstStr]
    if sig_bytes.length = 96 then
      match B.g2FromCompressed sig_bytes with
      | some signature =>
        match c.g1_public_key with
        | some public_key =>
          let hashed_message := B.hashToG2 message dst
          let log1 := log0 ++ ["  Parsed signature and public key successfully",
                               "  Hashed message to G2 successfully"]
          let verified := fast_pairing_equality B B.g1gen signature
              public_key hashed_message
          let log2 := log1 ++ ["  LHS pairing: computed",
                               "  RHS pairing: computed"]
          if !verified then
            (.error .mainnetVerifyFailed,
             log2 ++ ["  Fast pairing verification FAILED"])
          else
            (randomnessCheck sig_bytes b,
             log2 ++ ["  Fast pairing verification PASSED"])
        | none => (.error .missingG1PublicKey, log0)
      | none => (.error .invalidG2SigPoint, log0)
    else (.error .invalidG2SigLength, log0)

/-- verify_beacon (src/lib.rs lines 177-289): decode the signature hex,
build the signed message, then run the scheme-dispatched core; returns
the verdict together with the console output the function prints. -/
def DrandClient.verify_beacon [Neg G1] [CommGroup GT] [DecidableEq GT]
    (B : Bls G1 G2 GT ML) (c : DrandClient G1 G2) (b : DrandBeacon) :
    Except DrandError Unit × List String :=
  match hexDecode b.signature with
  | none => (.error .sigHexError, [])
  | some sig_bytes =>
    match buildMessage c.chain_config.scheme_id b with
    | .error e => (.error e, [])
    | .ok message => verifyCore B c b sig_bytes message

/-! ## Spec-side restatement of the message-construction rule

Written from the words of spec.md section 4.2, to be compared with the
definitions transcribed from the source. -/

/-- The inclusion rule exactly as the spec phrases it, in its priority
order: (1) exactly the chained identifier always includes; (2) one of the
three known unchained identifiers never includes; (3) any other
identifier includes only if the beacon carries a non-empty previous
signature. -/
def prevSigIncludedSpec (scheme_id : String) (b : DrandBeacon) : Bool :=
  if scheme_id = "pedersen-bls-chained" then true
  else if scheme_id = "bls-unchained-g1-rfc9380"
        ∨ scheme_id = "pedersen-bls-unchained"
        ∨ scheme_id = "bls-unchained-on-g1" then false
  else
    match b.previous_signature with
    | some s => !s.isEmpty
    | none => false

/-- The spec-side message: SHA-256 of optionally the hex-decoded previous
signature bytes followed by the round number as 8 big-endian bytes, the
option governed by the three-tier rule; a present-but-undecodable
previous signature is the only construction failure. -/
def buildMessageSpec (scheme_id : String) (b : DrandBeacon) :
    Except DrandError (List Nat) :=
  if prevSigIncludedSpec scheme_id b then
    match b.previous_signature with
    | some prev_sig =>
      if prev_sig.isEmpty then .ok (sha256 (u64be b.round))
      else
        match hexDecode prev_sig with
        | some prev_bytes => .ok (sha256 (prev_bytes ++ u64be b.round))
        | none => .error .prevSigHexError
    | none => .ok (sha256 (u64be b.round))
  else .ok (sha256 (u64be b.round))

/-- The four scheme identifiers the source recognizes. -/
def knownSchemeIds : List String :=
  ["pedersen-bls-chained", "bls-unchained-g1-rfc9380",
   "pedersen-bls-unchained", "bls-unchained-on-g1"]

/-- Replace only the scheme identifier of a client. -/
def setScheme (c : DrandClient G1 G2) (id : String) : DrandClient G1 G2 :=
  { c with chain_config := { c.chain_config with scheme_id := id } }

/-! ## A small concrete instance of the library interface

Used to exercise the theorems on concrete inputs: G1 and G2 are the
integers, the target group is the integers written multiplicatively, the
pairing multiplies, the Miller loop adds the two products and the final
exponentiation is the identity, so the lawfulness facts hold. -/

instance : DecidableEq (Multiplicative ℤ) :=
  inferInstanceAs (DecidableEq ℤ)

/-- Toy pairing library over the integers. -/
def toyBls : Bls ℤ ℤ (Multiplicative ℤ) (Multiplicative ℤ) where
  g1gen := 1
  g2gen := 1
  pairing p q := Multiplicative.ofAdd (p * q)
  multiMillerLoop2 p q r s := Multiplicative.ofAdd (p * q + r * s)
  finalExponentiation := id
  g1FromCompressed bs :=
    if bs.length = 48 then some ((bs.foldl (· + ·) 0 : Nat) : ℤ) else none
  g2FromCompressed bs :=
    if bs.length = 96 then some ((bs.foldl (· + ·) 0 : Nat) : ℤ) else none
  hashToG1 _ _ := 1
  hashToG2 _ _ := 1

/-! ## Concrete fixtures

Clients, configurations and beacons used to evaluate the theorems on
concrete inputs. The 96-hex-character signature below decodes to the 48
bytes c0 00 .. 00 (the compressed identity encoding, a valid G1 point for
the real library as well); its SHA-256 digest in lowercase hex is the
randomness value used by the matching beacons. -/

/-- A chain configuration with a zero period and a well-formed public key
(48 bytes), for exercising the missing construction-time validation. -/
def cfg0 : ChainConfig :=
  { chain_hash := "", genesis_time := 100, period := 0,
    scheme_id := "pedersen-bls-unchained",
    public_key := "c00000000000000000000000000000000000000000000000000000000000000000000000000000000000000000000000" }

/-- A concrete client for the round-clock claims: period 3, genesis 100. -/
def c5client : DrandClient ℤ ℤ :=
  { chain_config := { chain_hash := "", public_key := "", genesis_time := 100,
                      period := 3, scheme_id := "bls-unchained-g1-rfc9380" },
    g1_public_key := none, g2_public_key := none, use_quicknet := true,
    base_url := "", timeout_seconds := 0, quicknet_dst := "",
    mainnet_dst := "" }

/-- A quicknet client on the chained scheme, for the missing-previous
claim. -/
def c10client : DrandClient ℤ ℤ :=
  { chain_config := { chain_hash := "", public_key := "", genesis_time := 0,
                      period := 3, scheme_id := "pedersen-bls-chained" },
    g1_public_key := none, g2_public_key := some 192, use_quicknet := true,
    base_url := "", timeout_seconds := 0, quicknet_dst := "",
    mainnet_dst := "" }

/-- A beacon carrying an empty previous signature. -/
def c10beacon : DrandBeacon :=
  { round := 7, randomness := "", previous_signature := some "",
    signature := "c00000000000000000000000000000000000000000000000000000000000000000000000000000000000000000000000" }

/-- A quicknet client whose toy public key (7) does not match the toy
signature value (192), so the toy pairing check fails. -/
def c1client : DrandClient ℤ ℤ :=
  { chain_config := { chain_hash := "", public_key := "", genesis_time := 0,
                      period := 3, scheme_id := "bls-unchained-g1-rfc9380" },
    g1_public_key := none, g2_public_key := some 7, use_quicknet := true,
    base_url := "", timeout_seconds := 0, quicknet_dst := "",
    mainnet_dst := "" }

/-- An unchained beacon with the 48-byte signature. -/
def c1beacon : DrandBeacon :=
  { round := 5, randomness := "", previous_signature := none,
    signature := "c00000000000000000000000000000000000000000000000000000000000000000000000000000000000000000000000" }

/-- A quicknet client whose toy public key (192) matches the toy
signature value (192), so the toy pairing check passes. -/
def c7client : DrandClient ℤ ℤ :=
  { chain_config := { chain_hash := "", public_key := "", genesis_time := 0,
                      period := 3, scheme_id := "bls-unchained-g1-rfc9380" },
    g1_public_key := none, g2_public_key := some 192, use_quicknet := true,
    base_url := "", timeout_seconds := 0, quicknet_dst := "",
    mainnet_dst := "" }

/-- An unchained beacon whose randomness is the lowercase hex SHA-256 of
its signature bytes. -/
def c7beacon : DrandBeacon :=
  { round := 5,
    randomness := "5f0657f37554c781402a22917dee2f75def7ab966d7b770905398eba3c444014",
    previous_signature := none,
    signature := "c00000000000000000000000000000000000000000000000000000000000000000000000000000000000000000000000" }

/-- A quicknet client with an unrecognized scheme identifier and the
matching toy public key. -/
def c8client : DrandClient ℤ ℤ :=
  { chain_config := { chain_hash := "", public_key := "", genesis_time := 0,
                      period := 3, scheme_id := "future-scheme-v9" },
    g1_public_key := none, g2_public_key := some 192, use_quicknet := true,
    base_url := "", timeout_seconds := 0, quicknet_dst := "",
    mainnet_dst := "" }

/-- A beacon carrying a non-empty previous signature, so the probe rule
includes it, with correct randomness. -/
def c8beacon : DrandBeacon :=
  { round := 5,
    randomness := "5f0657f37554c781402a22917dee2f75def7ab966d7b770905398eba3c444014",
    previous_signature := some "aa",
    signature := "c00000000000000000000000000000000000000000000000000000000000000000000000000000000000000000000000" }

/-- A quicknet configuration whose public key is 96 bytes of valid hex. -/
def cfg6 : ChainConfig :=
  { chain_hash := "", genesis_time := 0, period := 3,
    scheme_id := "bls-unchained-g1-rfc9380",
    public_key := "c00000000000000000000000000000000000000000000000000000000000000000000000000000000000000000000000000000000000000000000000000000000000000000000000000000000000000000000000000000000000000000000000" }

/-- The client that construction from cfg6 produces over the toy
library. -/
def c6cl : DrandClient ℤ ℤ :=
  { chain_config := cfg6, g1_public_key := none, g2_public_key := some 192,
    use_quicknet := true, base_url := "", timeout_seconds := 0,
    quicknet_dst := "", mainnet_dst := "" }

/-- The toy library satisfies the two pairing facts. -/
theorem toyBls_lawful : toyBls.Lawful := by
  constructor
  · intro p q r s
    simp [toyBls, ofAdd_add]
  · intro p q
    simp [toyBls, neg_mul, ofAdd_neg]

/-- The optimized equality test agrees with comparing the two pairings,
for any lawful library (shared helper). -/
theorem fast_pairing_equality_iff [Neg G1] [CommGroup GT] [DecidableEq GT]
    {B : Bls G1 G2 GT ML} (hB : B.Lawful) (p : G1) (q : G2) (r : G1) (s : G2) :
    fast_pairing_equality B p q r s = true ↔ B.pairing p q = B.pairing r s := by
  unfold fast_pairing_equality
  simp only [decide_eq_true_eq, hB.fe_mml, hB.pairing_neg]
  exact inv_mul_eq_one

/-! ## Helper lemmas about the pipeline -/

/-- The randomness check as a positive conditional (shared helper). -/
theorem randomnessCheck_eq (sb : List Nat) (b : DrandBeacon) :
    randomnessCheck sb b =
      if hexEncode (sha256 sb) = b.randomness then .ok ()
      else .error .randomnessMismatch := by
  unfold randomnessCheck
  rw [ite_not]

/-- The randomness check never produces any other error (shared helper). -/
theorem randomnessCheck_ne (sb : List Nat) (b : DrandBeacon) (e : DrandError)
    (h1 : e ≠ .randomnessMismatch) :
    randomnessCheck sb b ≠ .error e := by
  rw [randomnessCheck_eq]
  split <;> simp [Ne.symm, h1]

/-- verify_beacon reduced to the core once the signature decodes and the
message builds (shared helper). -/
theorem verify_beacon_core [Neg G1] [CommGroup GT] [DecidableEq GT]
    (B : Bls G1 G2 GT ML) (c : DrandClient G1 G2) (b : DrandBeacon)
    {sb m : List Nat}
    (hsig : hexDecode b.signature = some sb)
    (hbuild : buildMessage c.chain_config.scheme_id b = .ok m) :
    DrandClient.verify_beacon B c b = verifyCore B c b sb m := by
  unfold DrandClient.verify_beacon
  rw [hsig, hbuild]

/-- The quicknet core once signature point and public key are available
(shared helper). -/
theorem verifyCore_quicknet [Neg G1] [CommGroup GT] [DecidableEq GT]
    (B : Bls G1 G2 GT ML) (c : DrandClient G1 G2) (b : DrandBeacon)
    {sb : List Nat} (m : List Nat) {sg : G1} {pk : G2}
    (hq : c.use_quicknet = true) (hlen : sb.length = 48)
    (hpt : B.g1FromCompressed sb = some sg)
    (hpk : c.g2_public_key = some pk) :
    verifyCore B c b sb m =
      if B.pairing sg B.g2gen
          ≠ B.pairing (B.hashToG1 m (strBytes c.quicknet_dst)) pk then
        (.error .quicknetVerifyFailed,
         ["DEBUG: Quicknet verification", "  Quicknet pairing verification",
          "  Quicknet pairing verification FAILED"])
      else
        (randomnessCheck sb b,
         ["DEBUG: Quicknet verification", "  Quicknet pairing verification",
          "  Quicknet pairing verification PASSED"]) := by
  unfold verifyCore
  rw [hq, hpt, hpk]
  simp [hlen]

/-- The mainnet core once signature point and public key are available
(shared helper). -/
theorem verifyCore_mainnet [Neg G1] [CommGroup GT] [DecidableEq GT]
    (B : Bls G1 G2 GT ML) (c : DrandClient G1 G2) (b : DrandBeacon)
    {sb : List Nat} (m : List Nat) {sg : G2} {pk : G1}
    (hq : c.use_quicknet = false) (hlen : sb.length = 96)
    (hpt : B.g2FromCompressed sb = some sg)
    (hpk : c.g1_public_key = some pk) :
    verifyCore B c b sb m =
      (let log2 := ["DEBUG: Mainnet verification",
                    "  Signature bytes len: " ++ toString sb.length,
                    "  Message: " ++ hexEncode m,
                    "  DST: " ++ c.mainnet_dst,
                    "  Parsed signature and public key successfully",
                    "  Hashed message to G2 successfully",
                    "  LHS pairing: computed", "  RHS pairing: computed"]
       if fast_pairing_equality B B.g1gen sg pk
            (B.hashToG2 m (strBytes c.mainnet_dst)) then
         (randomnessCheck sb b, log2 ++ ["  Fast pairing verification PASSED"])
       else
         (.error .mainnetVerifyFailed,
          log2 ++ ["  Fast pairing verification FAILED"])) := by
  unfold verifyCore
  rw [hq, hpt, hpk]
  simp [hlen]
  split <;> simp_all

/-- The scheme-dispatched core never reports a previous-signature decode
failure (shared helper). -/
theorem verifyCore_ne_prevSigHexError [Neg G1] [CommGroup GT] [DecidableEq GT]
    (B : Bls G1 G2 GT ML) (c : DrandClient G1 G2) (b : DrandBeacon)
    (sb m : List Nat) :
    (verifyCore B c b sb m).1 ≠ .error .prevSigHexError := by
  have hr := randomnessCheck_ne sb b .prevSigHexError (by simp)
  unfold verifyCore
  repeat' split
  all_goals try simp_all
  all_goals split <;> simp_all

/-! ## Claims -/

/-- C2: for every beacon and scheme identifier, the signed message built
by verify_beacon is SHA-256 of (optionally the hex-decoded previous
signature bytes, then the round number as 8 big-endian bytes), with the
previous signature included according to the three-tier priority rule of
the spec: always for the chained identifier, never for the three known
unchained identifiers, and for any other identifier exactly when the
beacon carries a non-empty previous signature. -/
theorem message_construction_matches_spec (scheme_id : String)
    (b : DrandBeacon) :
    buildMessage scheme_id b = buildMessageSpec scheme_id b := by
  have h : includePrevSig scheme_id b = prevSigIncludedSpec scheme_id b := by
    unfold includePrevSig prevSigIncludedSpec
    by_cases h1 : scheme_id = "pedersen-bls-chained" <;>
      by_cases h2 : scheme_id = "bls-unchained-g1-rfc9380" <;>
        by_cases h3 : scheme_id = "pedersen-bls-unchained" <;>
          by_cases h4 : scheme_id = "bls-unchained-on-g1" <;>
            simp [h1, h2, h3, h4]
  unfold buildMessage buildMessageSpec
  rw [h]

/-- C3 fails on the code: DrandClient::new performs no period validation,
so construction with period = 0 succeeds, and round_at_timestamp then
divides by zero at runtime for any timestamp past genesis (the `none`
models the u64 division abort). -/
theorem period_zero_reaches_runtime_division :
    (DrandClient.new toyBls cfg0 "" 0 false "" "").map
      (fun cl => cl.round_at_timestamp (cfg0.genesis_time + 1)) = .ok none := by
  rfl

/-- C4: the optimized pairing-equality check (negate one G1 point, one
combined two-pair Miller loop, one final exponentiation, compare with the
identity) returns true exactly when the two pairings are equal, for any
lawful pairing library. -/
theorem fast_pairing_equality_correct [Neg G1] [CommGroup GT]
    [DecidableEq GT] (B : Bls G1 G2 GT ML) (hB : B.Lawful)
    (p : G1) (q : G2) (r : G1) (s : G2) :
    fast_pairing_equality B p q r s = true ↔
      B.pairing p q = B.pairing r s :=
  fast_pairing_equality_iff hB p q r s

/-- C4 witness: the equivalence instantiated on the concrete toy library
at points with equal pairings. -/
theorem fast_pairing_equality_correct_witness :
    fast_pairing_equality toyBls 2 3 3 2 = true :=
  (fast_pairing_equality_correct toyBls toyBls_lawful 2 3 3 2).mpr (by decide)

/-- C5: with a positive period (the data-model invariant on chain
parameters), round_at_timestamp clamps every timestamp at or before
genesis to round 1, returns floor((t - genesis) / period) + 1 after
genesis, and next_round_after is always one more than
round_at_timestamp. -/
theorem round_clock_correct (c : DrandClient G1 G2)
    (hp : 0 < c.chain_config.period) :
    (∀ t, t ≤ c.chain_config.genesis_time →
       c.round_at_timestamp t = some 1)
    ∧ (∀ t, c.chain_config.genesis_time < t →
       c.round_at_timestamp t =
         some ((t - c.chain_config.genesis_time) / c.chain_config.period + 1))
    ∧ (∀ t, c.next_round_after t =
         (c.round_at_timestamp t).map (· + 1)) := by
  refine ⟨fun t ht => ?_, fun t ht => ?_, fun t => rfl⟩
  · simp [DrandClient.round_at_timestamp, ht]
  · unfold DrandClient.round_at_timestamp rustDiv
    rw [if_neg (by omega), if_neg (by omega)]
    rfl

/-- C5 witness: the round clock evaluated on the concrete client at a
timestamp before genesis and one after genesis. -/
theorem round_clock_correct_witness :
    c5client.round_at_timestamp 50 = some 1
    ∧ c5client.round_at_timestamp 103 = some 2
    ∧ c5client.next_round_after 103 = some 3 := by
  have h := round_clock_correct c5client (by decide)
  refine ⟨h.1 50 (by decide), ?_, ?_⟩
  · simpa using h.2.1 103 (by decide)
  · rw [h.2.2 103]
    simpa using h.2.1 103 (by decide)

/-- C10: on the chained scheme, a beacon whose previous signature is
absent or empty produces no previous-signature or message-construction
error: the signed message is SHA-256 of the 8-byte big-endian round
number alone, and verify_beacon never reports the previous-signature
decode failure. -/
theorem chained_scheme_missing_prev_ok [Neg G1] [CommGroup GT]
    [DecidableEq GT] (B : Bls G1 G2 GT ML) (c : DrandClient G1 G2)
    (b : DrandBeacon)
    (hs : c.chain_config.scheme_id = "pedersen-bls-chained")
    (hp : ∀ s, b.previous_signature = some s → s.isEmpty = true) :
    buildMessage c.chain_config.scheme_id b = .ok (sha256 (u64be b.round))
    ∧ (DrandClient.verify_beacon B c b).1 ≠ .error .prevSigHexError := by
  have hmsg : buildMessage c.chain_config.scheme_id b
      = .ok (sha256 (u64be b.round)) := by
    rw [hs]
    unfold buildMessage
    have hinc : includePrevSig "pedersen-bls-chained" b = true := by
      simp [includePrevSig]
    rw [hinc]
    cases hps : b.previous_signature with
    | none => simp
    | some s => simp [hp s hps]
  refine ⟨hmsg, ?_⟩
  unfold DrandClient.verify_beacon
  cases hsig : hexDecode b.signature with
  | none => simp
  | some sb =>
    rw [hmsg]
    exact verifyCore_ne_prevSigHexError B c b sb (sha256 (u64be b.round))

/-- C10 witness: the chained client with an empty previous signature on a
concrete beacon. -/
theorem chained_scheme_missing_prev_ok_witness :
    buildMessage c10client.chain_config.scheme_id c10beacon
      = .ok (sha256 (u64be c10beacon.round))
    ∧ (DrandClient.verify_beacon toyBls c10client c10beacon).1
      ≠ .error .prevSigHexError :=
  chained_scheme_missing_prev_ok toyBls c10client c10beacon rfl
    (by intro s h; simp [c10beacon] at h; subst h; rfl)

/-- C1: the pairing equality deciding signature validity is, for
quicknet/MinSig, e(signature, generator G2) = e(hashed message, public
key), and for mainnet/MinPk, e(generator G1, signature) = e(public key,
hashed message); once the signature decodes and the key is present,
verify_beacon returns the signature-invalid error of its scheme exactly
when that equality fails. -/
theorem verify_beacon_pairing_decides [Neg G1] [CommGroup GT]
    [DecidableEq GT] (B : Bls G1 G2 GT ML) (hB : B.Lawful) :
    (∀ (c : DrandClient G1 G2) (b : DrandBeacon) (sb m : List Nat)
       (sg : G1) (pk : G2),
      c.use_quicknet = true →
      hexDecode b.signature = some sb →
      buildMessage c.chain_config.scheme_id b = .ok m →
      sb.length = 48 →
      B.g1FromCompressed sb = some sg →
      c.g2_public_key = some pk →
      ((DrandClient.verify_beacon B c b).1 = .error .quicknetVerifyFailed ↔
        B.pairing sg B.g2gen
          ≠ B.pairing (B.hashToG1 m (strBytes c.quicknet_dst)) pk))
    ∧ (∀ (c : DrandClient G1 G2) (b : DrandBeacon) (sb m : List Nat)
       (sg : G2) (pk : G1),
      c.use_quicknet = false →
      hexDecode b.signature = some sb →
      buildMessage c.chain_config.scheme_id b = .ok m →
      sb.length = 96 →
      B.g2FromCompressed sb = some sg →
      c.g1_public_key = some pk →
      ((DrandClient.verify_beacon B c b).1 = .error .mainnetVerifyFailed ↔
        B.pairing B.g1gen sg
          ≠ B.pairing pk (B.hashToG2 m (strBytes c.mainnet_dst)))) := by
  constructor
  · intro c b sb m sg pk hq hsig hbuild hlen hpt hpk
    rw [show (DrandClient.verify_beacon B c b) = verifyCore B c b sb m from
          verify_beacon_core B c b hsig hbuild,
        verifyCore_quicknet B c b m hq hlen hpt hpk]
    by_cases hpair : B.pairing sg B.g2gen
        = B.pairing (B.hashToG1 m (strBytes c.quicknet_dst)) pk
    · rw [if_neg (not_not_intro hpair)]
      have hrc := randomnessCheck_ne sb b .quicknetVerifyFailed (by simp)
      simp [hpair, hrc]
    · rw [if_pos hpair]
      simp [hpair]
  · intro c b sb m sg pk hq hsig hbuild hlen hpt hpk
    rw [show (DrandClient.verify_beacon B c b) = verifyCore B c b sb m from
          verify_beacon_core B c b hsig hbuild,
        verifyCore_mainnet B c b m hq hlen hpt hpk]
    have hiff := fast_pairing_equality_iff hB B.g1gen sg pk
        (B.hashToG2 m (strBytes c.mainnet_dst))
    cases hfp : fast_pairing_equality B B.g1gen sg pk
        (B.hashToG2 m (strBytes c.mainnet_dst)) with
    | true =>
      have hpair := hiff.mp hfp
      have hrc := randomnessCheck_ne sb b .mainnetVerifyFailed (by simp)
      simp [hfp, hpair, hrc]
    | false =>
      have hpair : ¬(B.pairing B.g1gen sg
          = B.pairing pk (B.hashToG2 m (strBytes c.mainnet_dst))) := by
        intro h
        rw [hiff.mpr h] at hfp
        simp at hfp
      simp [hfp, hpair]

/-- C1 witness: the quicknet branch on the concrete mismatching client,
where the toy pairings differ and verify_beacon reports the quicknet
signature failure. -/
theorem verify_beacon_pairing_decides_witness :
    (DrandClient.verify_beacon toyBls c1client c1beacon).1
      = .error .quicknetVerifyFailed :=
  ((verify_beacon_pairing_decides toyBls toyBls_lawful).1 c1client c1beacon
    (192 :: List.replicate 47 0) (sha256 (u64be 5)) 192 7
    rfl rfl rfl rfl rfl rfl).mpr (by decide)

/-- C6: client construction succeeds exactly when the public-key hex
decodes, the byte length matches the compressed point size of the scheme
group (96 bytes for G2/quicknet, 48 bytes for G1/mainnet), and the bytes
decode to a valid subgroup point under the library validation; on success
exactly one public key is held, in the group the scheme selects. -/
theorem new_key_material (B : Bls G1 G2 GT ML) (cfg : ChainConfig)
    (url : String) (t : Nat) (uq : Bool) (qd md : String) :
    ((∃ cl, DrandClient.new B cfg url t uq qd md = .ok cl) ↔
      (∃ bs, hexDecode cfg.public_key = some bs
        ∧ bs.length = (if uq then 96 else 48)
        ∧ (if uq then (B.g2FromCompressed bs).isSome = true
           else (B.g1FromCompressed bs).isSome = true)))
    ∧ (∀ cl, DrandClient.new B cfg url t uq qd md = .ok cl →
        cl.g2_public_key.isSome = uq ∧ cl.g1_public_key.isSome = !uq) := by
  constructor
  · unfold DrandClient.new
    cases hx : hexDecode cfg.public_key with
    | none => simp
    | some bs =>
      cases uq with
      | false =>
        by_cases hlen : bs.length = 48
        · cases hpt : B.g1FromCompressed bs with
          | none => simp [hlen, hpt]
          | some pk => simp [hlen, hpt]
        · simp [hlen]
      | true =>
        by_cases hlen : bs.length = 96
        · cases hpt : B.g2FromCompressed bs with
          | none => simp [hlen, hpt]
          | some pk => simp [hlen, hpt]
        · simp [hlen]
  · intro cl hcl
    unfold DrandClient.new at hcl
    repeat' split at hcl
    all_goals simp_all
    all_goals (cases hcl; simp)

/-- C6 witness: construction from the concrete quicknet configuration
yields the expected client, which holds exactly the G2 key. -/
theorem new_key_material_witness :
    c6cl.g2_public_key.isSome = true ∧ c6cl.g1_public_key.isSome = !true :=
  (new_key_material toyBls cfg6 "" 0 true "" "").2 c6cl rfl

/-- C7: once the pairing check of the scheme in use passes, verification
accepts exactly when the lowercase hex encoding of SHA-256 of the raw
signature bytes equals the claimed randomness as a string, and otherwise
returns the randomness-mismatch error; the hex encoding uses only the
lowercase characters 0-9 and a-f, so the string comparison is
case-sensitive. -/
theorem randomness_exact_match [Neg G1] [CommGroup GT] [DecidableEq GT]
    (B : Bls G1 G2 GT ML) :
    (∀ (c : DrandClient G1 G2) (b : DrandBeacon) (sb m : List Nat)
       (sg : G1) (pk : G2),
      c.use_quicknet = true →
      hexDecode b.signature = some sb →
      buildMessage c.chain_config.scheme_id b = .ok m →
      sb.length = 48 →
      B.g1FromCompressed sb = some sg →
      c.g2_public_key = some pk →
      B.pairing sg B.g2gen
        = B.pairing (B.hashToG1 m (strBytes c.quicknet_dst)) pk →
      (DrandClient.verify_beacon B c b).1 =
        (if hexEncode (sha256 sb) = b.randomness then .ok ()
         else .error .randomnessMismatch))
    ∧ (∀ (c : DrandClient G1 G2) (b : DrandBeacon) (sb m : List Nat)
       (sg : G2) (pk : G1),
      c.use_quicknet = false →
      hexDecode b.signature = some sb →
      buildMessage c.chain_config.scheme_id b = .ok m →
      sb.length = 96 →
      B.g2FromCompressed sb = some sg →
      c.g1_public_key = some pk →
      fast_pairing_equality B B.g1gen sg pk
        (B.hashToG2 m (strBytes c.mainnet_dst)) = true →
      (DrandClient.verify_beacon B c b).1 =
        (if hexEncode (sha256 sb) = b.randomness then .ok ()
         else .error .randomnessMismatch))
    ∧ (∀ (bs : List Nat), ∀ ch ∈ (hexEncode bs).data,
        ('0' ≤ ch ∧ ch ≤ '9') ∨ ('a' ≤ ch ∧ ch ≤ 'f')) := by
  refine ⟨?_, ?_, ?_⟩
  · intro c b sb m sg pk hq hsig hbuild hlen hpt hpk hpair
    rw [show (DrandClient.verify_beacon B c b) = verifyCore B c b sb m from
          verify_beacon_core B c b hsig hbuild,
        verifyCore_quicknet B c b m hq hlen hpt hpk,
        if_neg (not_not_intro hpair)]
    simp [randomnessCheck_eq]
  · intro c b sb m sg pk hq hsig hbuild hlen hpt hpk hfp
    rw [show (DrandClient.verify_beacon B c b) = verifyCore B c b sb m from
          verify_beacon_core B c b hsig hbuild,
        verifyCore_mainnet B c b m hq hlen hpt hpk]
    simp [hfp, randomnessCheck_eq]
  · intro bs
    have hdig : ∀ n : Nat, n < 16 →
        (('0' ≤ hexDigit n ∧ hexDigit n ≤ '9')
          ∨ ('a' ≤ hexDigit n ∧ hexDigit n ≤ 'f')) := by decide
    have hP : ∀ n : Nat,
        ('0' ≤ hexDigit n ∧ hexDigit n ≤ '9')
          ∨ ('a' ≤ hexDigit n ∧ hexDigit n ≤ 'f') := by
      intro n
      have hmod : hexDigit n = hexDigit (n % 16) := by
        unfold hexDigit
        rw [Nat.mod_mod_of_dvd _ dvd_rfl]
      rw [hmod]
      exact hdig (n % 16) (Nat.mod_lt _ (by decide))
    induction bs with
    | nil => intro ch h; simp [hexEncode, hexEncodeChars] at h
    | cons bhd btl ih =>
      intro ch h
      have hdata : (hexEncode (bhd :: btl)).data
          = hexDigit (bhd / 16) :: hexDigit (bhd % 16)
            :: hexEncodeChars btl := rfl
      rw [hdata, List.mem_cons, List.mem_cons] at h
      have hdata2 : (hexEncode btl).data = hexEncodeChars btl := rfl
      rw [hdata2] at ih
      rcases h with h | h | h
      · rw [h]; exact hP (bhd / 16)
      · rw [h]; exact hP (bhd % 16)
      · exact ih ch h

/-- C7 witness: the passing quicknet client on the concrete beacon, whose
verdict is decided by the randomness string comparison. -/
theorem randomness_exact_match_witness :
    (DrandClient.verify_beacon toyBls c7client c7beacon).1 =
      (if hexEncode (sha256 (192 :: List.replicate 47 0))
          = c7beacon.randomness then .ok ()
       else .error .randomnessMismatch) :=
  (randomness_exact_match toyBls).1 c7client c7beacon
    (192 :: List.replicate 47 0) (sha256 (u64be 5)) 192 192
    rfl rfl rfl rfl rfl rfl (by decide)

/-- An unrecognized scheme identifier reduces the inclusion rule to the
data probe (shared helper). -/
theorem includePrevSig_unknown {id : String} (b : DrandBeacon)
    (h : id ∉ knownSchemeIds) :
    includePrevSig id b =
      (match b.previous_signature with
       | some s => !s.isEmpty
       | none => false) := by
  simp only [knownSchemeIds, List.mem_cons, List.not_mem_nil, or_false] at h
  push_neg at h
  unfold includePrevSig
  rw [if_neg h.1, if_neg h.2.1, if_neg h.2.2.1, if_neg h.2.2.2]

/-- C8: an unrecognized scheme identifier is never by itself an error:
the verdict is unchanged when one unknown identifier is replaced by
another, and whenever the signature decodes, the message builds (probing
the previous signature), the key is present, the pairing holds and the
randomness matches, verify_beacon accepts; only decode failures and the
cryptographic checks produce errors. -/
theorem unknown_scheme_no_error [Neg G1] [CommGroup GT] [DecidableEq GT]
    (B : Bls G1 G2 GT ML) (c : DrandClient G1 G2) (b : DrandBeacon)
    (hunk : c.chain_config.scheme_id ∉ knownSchemeIds) :
    (∀ id2, id2 ∉ knownSchemeIds →
      DrandClient.verify_beacon B (setScheme c id2) b
        = DrandClient.verify_beacon B c b)
    ∧ (∀ (sb m : List Nat) (sg : G1) (pk : G2),
      c.use_quicknet = true →
      hexDecode b.signature = some sb →
      buildMessage c.chain_config.scheme_id b = .ok m →
      sb.length = 48 →
      B.g1FromCompressed sb = some sg →
      c.g2_public_key = some pk →
      B.pairing sg B.g2gen
        = B.pairing (B.hashToG1 m (strBytes c.quicknet_dst)) pk →
      hexEncode (sha256 sb) = b.randomness →
      (DrandClient.verify_beacon B c b).1 = .ok ())
    ∧ (∀ (sb m : List Nat) (sg : G2) (pk : G1),
      c.use_quicknet = false →
      hexDecode b.signature = some sb →
      buildMessage c.chain_config.scheme_id b = .ok m →
      sb.length = 96 →
      B.g2FromCompressed sb = some sg →
      c.g1_public_key = some pk →
      fast_pairing_equality B B.g1gen sg pk
        (B.hashToG2 m (strBytes c.mainnet_dst)) = true →
      hexEncode (sha256 sb) = b.randomness →
      (DrandClient.verify_beacon B c b).1 = .ok ()) := by
  refine ⟨?_, ?_, ?_⟩
  · intro id2 h2
    have hb : buildMessage (setScheme c id2).chain_config.scheme_id b
        = buildMessage c.chain_config.scheme_id b := by
      show buildMessage id2 b = buildMessage c.chain_config.scheme_id b
      unfold buildMessage
      rw [includePrevSig_unknown b h2, includePrevSig_unknown b hunk]
    unfold DrandClient.verify_beacon
    rw [hb]
    cases hx : hexDecode b.signature with
    | none => rfl
    | some sb =>
      cases hbm : buildMessage c.chain_config.scheme_id b with
      | error e => rfl
      | ok m => rfl
  · intro sb m sg pk hq hsig hbuild hlen hpt hpk hpair hrand
    rw [show (DrandClient.verify_beacon B c b) = verifyCore B c b sb m from
          verify_beacon_core B c b hsig hbuild,
        verifyCore_quicknet B c b m hq hlen hpt hpk,
        if_neg (not_not_intro hpair)]
    simp [randomnessCheck_eq, hrand]
  · intro sb m sg pk hq hsig hbuild hlen hpt hpk hfp hrand
    rw [show (DrandClient.verify_beacon B c b) = verifyCore B c b sb m from
          verify_beacon_core B c b hsig hbuild,
        verifyCore_mainnet B c b m hq hlen hpt hpk]
    simp [hfp, randomnessCheck_eq, hrand]

/-- C8 witness: the concrete client with the unrecognized identifier
accepts a beacon whose decodes, pairing and randomness are all good. -/
theorem unknown_scheme_no_error_witness :
    (DrandClient.verify_beacon toyBls c8client c8beacon).1 = .ok () :=
  (unknown_scheme_no_error toyBls c8client c8beacon (by decide)).2.1
    (192 :: List.replicate 47 0) (sha256 ([170] ++ u64be 5)) 192 192
    rfl rfl rfl rfl rfl rfl (by decide) (by decide)

/-- C9 fails on the code: verify_beacon prints debug lines on every run,
and in particular prints a PASSED or FAILED line that leaks the internal
pairing boolean: the same client shape on two beacons produces non-empty
console output differing exactly in that line. -/
theorem verify_console_output_leaks :
    (DrandClient.verify_beacon toyBls c1client c1beacon).2
      = ["DEBUG: Quicknet verification", "  Quicknet pairing verification",
         "  Quicknet pairing verification FAILED"]
    ∧ (DrandClient.verify_beacon toyBls c7client c7beacon).2
      = ["DEBUG: Quicknet verification", "  Quicknet pairing verification",
         "  Quicknet pairing verification PASSED"] := by
  constructor
  · rfl
  · rfl
